import Mathlib

/-!
Shallow embedding of the media catalogue application (src/app.py) for
verification.  The application is a form over a remote spreadsheet, with an
optional file upload to a cloud drive.  External services are modelled by
oracle fields of a `World` record; Python exceptions are modelled with
`Except PyExc`; the Python value `None` appearing in a spreadsheet row is
modelled by the cell constructor `Cell.pynone`.
-/

namespace MediaApp

/-- Python exceptions that the embedded functions can raise. -/
inductive PyExc where
  | valueError
  | apiError
deriving DecidableEq, Repr

/-- A spreadsheet cell / row entry: a string, a number, or the Python value
None (which ends up in a row when a failed upload returns None). -/
inductive Cell where
  | str (s : String)
  | num (q : ℚ)
  | pynone
deriving DecidableEq, Repr

/-- Rendering of a rational as Python str() renders the corresponding float,
for the values the rating slider can produce (multiples of 0.5 in [0, 10]).
Other denominators cannot arise from the UI and get a fallback rendering. -/
def ratStr (q : ℚ) : String :=
  if q.den = 1 then toString q.num ++ ".0"
  else if q.den = 2 then toString (q.num / 2) ++ ".5"
  else toString q.num ++ "/" ++ toString q.den

/-- Stringified form of a cell, as pandas astype(str) produces it:
strings unchanged, numbers via str(), Python None becomes "None". -/
def cellStr : Cell → String
  | Cell.str s => s
  | Cell.num q => ratStr q
  | Cell.pynone => "None"

/-- The parsed service-account dictionary is opaque to the application: it is
only handed to the credential constructor.  We model it as a token. -/
abbrev KeyDict := String

/-- A credential object is opaque to the application: it is only tested for
truthiness and handed to the client libraries.  We model it as Unit. -/
abbrev Creds := Unit

/-- A value stored under the google_key secret: either a string (possibly
JSON) or a structured dictionary object. -/
inductive SecretVal where
  | str (s : String)
  | dict (k : KeyDict)
deriving DecidableEq, Repr

/-- The state of the outside world as the application sees it: the secrets,
the behaviour of the credential constructors, the failure behaviour of the
spreadsheet and drive services, the remote sheet contents, and the clock. -/
structure World where
  /-- st.secrets section google_key, when present. -/
  googleKey : Option SecretVal
  /-- st.secrets section drive_folder_id, when present. -/
  driveFolderId : Option String
  /-- json.loads: some parsed dictionary, or none when it raises. -/
  parseJson : String → Option KeyDict
  /-- Credentials.from_service_account_info: some credentials, or none when
  it raises (malformed service-account data). -/
  fromInfo : KeyDict → Option Creds
  /-- Credentials.from_service_account_file on key.json: some credentials,
  or none when it raises (file missing or malformed). -/
  fromFile : Option Creds
  /-- Whether gspread.authorize / open_by_url raises (connection, auth or
  open failure while building the sheet client). -/
  openRaises : Bool
  /-- Whether sheet.get_all_records raises (fetch failure). -/
  fetchRaises : Bool
  /-- Result of the drive create request: some web view link on success,
  none when the request raises (the code catches it and returns None). -/
  driveUploadResult : Option String
  /-- Current contents of the remote worksheet, row
  major, first row being the header when present. -/
  sheetRows : List (List Cell)
  /-- str(datetime.now()) at submission time. -/
  now : String

/-- get_creds of src/app.py.  The string branch wraps json.loads and the
credential constructor in one try/except whose handler falls through to the
local-file mode; the dict branch calls the credential constructor with no
try/except around it, so its failure propagates; the local-file mode wraps
its constructor in try/except and returns None on failure. -/
def get_creds (w : World) : Except PyExc (Option Creds) :=
  match w.googleKey with
  | some (SecretVal.str s) =>
      match w.parseJson s with
      | some k =>
          match w.fromInfo k with
          | some c => Except.ok (some c)
          | none => Except.ok w.fromFile
      | none => Except.ok w.fromFile
  | some (SecretVal.dict k) =>
      match w.fromInfo k with
      | some c => Except.ok (some c)
      | none => Except.error PyExc.valueError
  | none => Except.ok w.fromFile

/-- get_sheet_client of src/app.py: resolve credentials, then authorize and
open the sheet by URL.  No try/except here: failures of get_creds or of the
authorize/open calls propagate to the caller. -/
def get_sheet_client (w : World) : Except PyExc (Option Unit) :=
  match get_creds w with
  | Except.error e => Except.error e
  | Except.ok none => Except.ok none
  | Except.ok (some _) =>
      if w.openRaises then Except.error PyExc.apiError else Except.ok (some ())

/-- A pandas DataFrame reduced to what the application observes: an ordered
list of column names and the list of rows. -/
structure DataFrame where
  cols : List String
  rows : List (List Cell)
deriving DecidableEq, Repr

/-- pd.DataFrame(sheet.get_all_records()): the first sheet row is the header,
the remaining rows are the records.  With no records the DataFrame is empty
and has no columns (pd.DataFrame of an empty list). -/
def dataFrameOfValues : List (List Cell) → DataFrame
  | [] => DataFrame.mk [] []
  | header :: body =>
      if body.isEmpty then DataFrame.mk [] []
      else DataFrame.mk (header.map cellStr) body

/-- get_data of src/app.py.  Only the fetch itself is inside try/except;
the client construction is outside it, so its failures propagate. -/
def get_data (w : World) : Except PyExc DataFrame :=
  match get_sheet_client w with
  | Except.error e => Except.error e
  | Except.ok none => Except.ok (DataFrame.mk [] [])
  | Except.ok (some _) =>
      if w.fetchRaises then Except.ok (DataFrame.mk [] [])
      else Except.ok (dataFrameOfValues w.sheetRows)

/-- update_entire_sheet of src/app.py: when a client is available, clear the
sheet and write the header row followed by all rows; otherwise do nothing. -/
def update_entire_sheet (w : World) (df : DataFrame) : Except PyExc World :=
  match get_sheet_client w with
  | Except.error e => Except.error e
  | Except.ok none => Except.ok w
  | Except.ok (some _) =>
      Except.ok { w with sheetRows := df.cols.map Cell.str :: df.rows }

/-- upload_file_to_drive of src/app.py: resolve credentials first (a failure
there propagates), then require the drive_folder_id secret (missing id gives
None), then, when both credentials and a truthy folder id are present, run
the create request inside try/except, returning the link or None. -/
def upload_file_to_drive (w : World) : Except PyExc (Option String) :=
  match get_creds w with
  | Except.error e => Except.error e
  | Except.ok creds =>
      match w.driveFolderId with
      | none => Except.ok none
      | some folderId =>
          match creds with
          | some _ =>
              if folderId = "" then Except.ok none
              else Except.ok w.driveUploadResult
          | none => Except.ok none

/-- The values of the entry form at submission time: the text fields, the
selected category, the rating slider value, and whether the user picked a
file in the uploader (the uploader widget exists only when rating >= 8.0,
so uploaded_file can be truthy only in that case). -/
structure SubmitInput where
  title : String
  category : String
  tags : String
  rating : ℚ
  review : String
  fileChosen : Bool
deriving DecidableEq, Repr

/-- Observable effects of one form submission: whether the empty-title
warning fired, whether a drive upload was attempted, and the row appended to
the sheet, when one was. -/
structure Effects where
  warnedEmptyTitle : Bool
  uploadAttempted : Bool
  appendedRow : Option (List Cell)
deriving DecidableEq, Repr

/-- The row built in main before append_row, in the fixed order
title, category, tags, rating, review, created_at, file_link. -/
def rowCells (inp : SubmitInput) (now : String) (fileLink : Cell) : List Cell :=
  [Cell.str inp.title, Cell.str inp.category, Cell.str inp.tags,
   Cell.num inp.rating, Cell.str inp.review, Cell.str now, fileLink]

/-- The sheet-append step of the submit handler: get a client and, when one
is available, append the row; a failure while building the client
propagates, and an unavailable client silently skips the append. -/
def appendStep (w : World) (inp : SubmitInput) (ua : Bool) (fileLink : Cell) :
    Except PyExc World × Effects :=
  match get_sheet_client w with
  | Except.error e => (Except.error e, Effects.mk false ua none)
  | Except.ok none => (Except.ok w, Effects.mk false ua none)
  | Except.ok (some _) =>
      let row := rowCells inp w.now fileLink
      (Except.ok { w with sheetRows := w.sheetRows ++ [row] },
       Effects.mk false ua (some row))

/-- The submit branch of main in src/app.py.  An empty title only warns.
Otherwise file_link starts as the empty string; when a file was uploaded
(possible only with rating >= 8.0) the upload runs first and file_link
becomes its result, which is None on failure; then the row is appended. -/
def submitForm (w : World) (inp : SubmitInput) : Except PyExc World × Effects :=
  if inp.title = "" then (Except.ok w, Effects.mk true false none)
  else
    let uploadedFile := decide (8 ≤ inp.rating) && inp.fileChosen
    if uploadedFile then
      match upload_file_to_drive w with
      | Except.error e => (Except.error e, Effects.mk false true none)
      | Except.ok (some l) => appendStep w inp true (Cell.str l)
      | Except.ok none => appendStep w inp true Cell.pynone
    else appendStep w inp false (Cell.str "")

/-- Contiguous-sublist test on character lists, used to model the substring
test of the search filter. -/
def charsInfix (pat : List Char) : List Char → Bool
  | [] => pat.isEmpty
  | c :: t => pat.isPrefixOf (c :: t) || charsInfix pat t

/-- Case-insensitive literal substring containment: both sides are
lowercased character by character and the term is looked up as a contiguous
substring.  This is the reading of the search that the specification
describes; the code itself runs a regular-expression search (see reSearch
below), and the two coincide exactly on terms free of regex
metacharacters. -/
def containsCI (hay pat : String) : Bool :=
  charsInfix (pat.toList.map Char.toLower) (hay.toList.map Char.toLower)

/-- Substring-reading row mask: some column of the row, stringified,
contains the term case-insensitively as a literal substring. -/
def rowMatchesCI (r : List Cell) (term : String) : Bool :=
  r.any (fun c => containsCI (cellStr c) term)

/-- The characters the Python re module treats specially in a pattern. -/
def metachars : List Char :=
  ['.', '^', '$', '*', '+', '?', '\x7b', '\x7d', '[', ']', '\\', '|', '(', ')']

/-- A token of the modelled regular-expression fragment: a literal
character or the dot wildcard. -/
inductive RTok where
  | lit (c : Char)
  | dot
deriving DecidableEq, Repr

/-- Compilation of a search term, as re.compile sees it: the dot becomes
the wildcard, ordinary characters become literals, and a term using any
other metacharacter falls outside the modelled fragment (none), covering
both further regex constructs and invalid patterns that raise re.error. -/
def parseTerm : List Char → Option (List RTok)
  | [] => some []
  | c :: t =>
    if c = '.' then (parseTerm t).map (fun ts => RTok.dot :: ts)
    else if c ∈ metachars then none
    else (parseTerm t).map (fun ts => RTok.lit c :: ts)

/-- Anchored match of a token list against a prefix of the subject, with
IGNORECASE folding on literals; the dot matches any character except the
newline, as in Python without DOTALL. -/
def matchPrefix : List RTok → List Char → Bool
  | [], _ => true
  | _ :: _, [] => false
  | RTok.lit c :: ts, d :: ds =>
      (Char.toLower c == Char.toLower d) && matchPrefix ts ds
  | RTok.dot :: ts, d :: ds => (d != '\n') && matchPrefix ts ds

/-- Unanchored search, as re.search: the tokens match at some position of
the subject. -/
def reSearch (ts : List RTok) : List Char → Bool
  | [] => matchPrefix ts []
  | d :: ds => matchPrefix ts (d :: ds) || reSearch ts ds

/-- The row mask the code computes: some column of the row, stringified,
has a match of the compiled term, modelling
Series.str.contains(term, case=False) with its default regex=True. -/
def rowMatchesRe (r : List Cell) (ts : List RTok) : Bool :=
  r.any (fun c => reSearch ts (cellStr c).toList)

/-- The search filter of the management tab: with a truthy term the term is
compiled as a regular expression and the rows with a matching mask are
kept; with an empty term everything is shown.  A term outside the modelled
regex fragment gives none. -/
def filterDf (df : DataFrame) (term : String) : Option DataFrame :=
  if term = "" then some df
  else
    match parseTerm term.toList with
    | none => none
    | some ts =>
        some (DataFrame.mk df.cols (df.rows.filter (fun r => rowMatchesRe r ts)))

/-- The guard before display in the management tab: when the file_link
column is absent, add it with empty-string values. -/
def ensureFileLink (df : DataFrame) : DataFrame :=
  if df.cols.contains "file_link" then df
  else DataFrame.mk (df.cols ++ ["file_link"])
    (df.rows.map (fun r => r ++ [Cell.str ""]))

/-- The display pipeline of the management tab: read the data, apply the
search filter, ensure the file_link column.  The world is returned
unchanged alongside the display frame: this path performs no write.  The
outer Option is none exactly when the term falls outside the modelled
regex fragment. -/
def searchView (w : World) (term : String) :
    Option (Except PyExc (World × DataFrame)) :=
  match get_data w with
  | Except.error e => some (Except.error e)
  | Except.ok df =>
      match filterDf df term with
      | none => none
      | some f => some (Except.ok (w, ensureFileLink f))

/-- The save-button handler of the management tab: with a truthy search term
it only warns (the Bool records the warning) and leaves the world unchanged;
with an empty term it overwrites the whole sheet with the edited frame. -/
def clickSave (w : World) (term : String) (edited : DataFrame) :
    Except PyExc World × Bool :=
  if term = "" then
    match update_entire_sheet w edited with
    | Except.error e => (Except.error e, false)
    | Except.ok w2 => (Except.ok w2, false)
  else (Except.ok w, true)

/-- The header row the sheet is expected to carry, in the fixed column order
used by the append in main. -/
def fixedHeader : List String :=
  ["title", "category", "tags", "rating", "review", "created_at", "file_link"]

/-- The header as a sheet row. -/
def headerRow : List Cell := fixedHeader.map Cell.str

/-- Well-formedness of a link value, as the LinkColumn of the management tab
validates it (regex https-prefix). -/
def wellFormedLink (s : String) : Bool :=
  "https://".toList.isPrefixOf s.toList

/-! Concrete worlds and inputs used to instantiate the theorems. -/

/-- A world where the secrets hold a well-formed structured service-account
object, the sheet is reachable and carries only the header row, and no drive
folder is configured. -/
def wBase : World where
  googleKey := some (SecretVal.dict "sa")
  driveFolderId := none
  parseJson := fun _ => none
  fromInfo := fun _ => some ()
  fromFile := none
  openRaises := false
  fetchRaises := false
  driveUploadResult := none
  sheetRows := [headerRow]
  now := "2024-05-01 12:00:00"

/-- A form submission with a non-empty title, rating 9.0 and no file. -/
def inpX : SubmitInput where
  title := "X"
  category := "AV"
  tags := "tag1 tag2"
  rating := 9
  review := "great"
  fileChosen := false

/-! Helper lemmas shared by the claim theorems. -/

/-- Replacing the sheet contents changes nothing the client construction
looks at. -/
theorem get_sheet_client_set_rows (w : World) (r : List (List Cell)) :
    get_sheet_client { w with sheetRows := r } = get_sheet_client w := rfl

/-- A successfully constructed sheet client presupposes credentials. -/
theorem creds_of_sheet_client (w : World)
    (h : get_sheet_client w = Except.ok (some ())) :
    ∃ c, get_creds w = Except.ok (some c) := by
  unfold get_sheet_client at h
  cases hc : get_creds w with
  | error e => rw [hc] at h; exact absurd h (by simp)
  | ok creds =>
    cases creds with
    | none => rw [hc] at h; exact absurd h (by simp)
    | some c => exact ⟨c, rfl⟩

/-- Stringifying a row of string cells gives back the strings. -/
theorem map_cellStr_str (l : List String) :
    (l.map Cell.str).map cellStr = l := by
  induction l with
  | nil => rfl
  | cons a t ih => simp [cellStr, ih]

/-- Stringification undoes the string-cell constructor. -/
theorem cellStr_comp_str : cellStr ∘ Cell.str = id := rfl

/-- Unless the google_key secret is a structured object that the credential
constructor rejects, get_creds returns normally. -/
theorem get_creds_ok_of_no_bad_dict (w : World)
    (h : ∀ k, w.googleKey = some (SecretVal.dict k) →
      (w.fromInfo k).isSome = true) :
    ∃ r, get_creds w = Except.ok r := by
  cases hk : w.googleKey with
  | none => exact ⟨w.fromFile, by simp [get_creds, hk]⟩
  | some v =>
    cases v with
    | str s =>
      cases hp : w.parseJson s with
      | none => exact ⟨w.fromFile, by simp [get_creds, hk, hp]⟩
      | some k =>
        cases hfi : w.fromInfo k with
        | none => exact ⟨w.fromFile, by simp [get_creds, hk, hp, hfi]⟩
        | some c => exact ⟨some c, by simp [get_creds, hk, hp, hfi]⟩
    | dict k =>
      cases hfi : w.fromInfo k with
      | none => exact absurd (h k hk) (by simp [hfi])
      | some c => exact ⟨some c, by simp [get_creds, hk, hfi]⟩

/-- The upload-attempt component of the append step is the flag passed in:
the append step itself never attempts an upload. -/
theorem appendStep_uploadAttempted (w : World) (inp : SubmitInput)
    (ua : Bool) (c : Cell) :
    ((appendStep w inp ua c).2).uploadAttempted = ua := by
  unfold appendStep
  cases get_sheet_client w with
  | error e => rfl
  | ok o => cases o with
    | none => rfl
    | some u => rfl

/-- A term free of metacharacters compiles to the list of its characters
as literals. -/
theorem parseTerm_lit (l : List Char) (h : ∀ c ∈ l, c ∉ metachars) :
    parseTerm l = some (l.map RTok.lit) := by
  induction l with
  | nil => rfl
  | cons c t ih =>
    have hc : c ∉ metachars := h c (List.mem_cons_self c t)
    have hdot : ¬ c = '.' := fun hd => hc (by rw [hd]; decide)
    simp [parseTerm, hdot, hc, ih (fun d hd => h d (List.mem_cons_of_mem c hd))]

/-- On all-literal patterns the anchored match is the case-folded prefix
test. -/
theorem matchPrefix_lit (pat : List Char) : ∀ s : List Char,
    matchPrefix (pat.map RTok.lit) s =
      (pat.map Char.toLower).isPrefixOf (s.map Char.toLower) := by
  induction pat with
  | nil => intro s; cases s <;> rfl
  | cons c t ih =>
    intro s
    cases s with
    | nil => rfl
    | cons d ds => simp [matchPrefix, List.isPrefixOf, ih]

/-- On all-literal patterns the regex search is the case-folded substring
test. -/
theorem reSearch_lit (pat : List Char) : ∀ s : List Char,
    reSearch (pat.map RTok.lit) s =
      charsInfix (pat.map Char.toLower) (s.map Char.toLower) := by
  intro s
  induction s with
  | nil => cases pat <;> rfl
  | cons d ds ih => simp [reSearch, charsInfix, matchPrefix_lit, ih]

/-- On metacharacter-free terms the regex row mask of the code agrees with
the substring row mask the specification describes. -/
theorem rowMatchesRe_lit (r : List Cell) (term : String) :
    rowMatchesRe r (term.toList.map RTok.lit) = rowMatchesCI r term := by
  unfold rowMatchesRe rowMatchesCI containsCI
  simp [reSearch_lit]

/-! The claims. -/

/-- Claim C1: submitting the entry form with a non-empty title (for example
title X, category AV, rating 9.0) appends one row in the fixed column order
title, category, tags, rating, review, created_at, file_link, and a
subsequent read of all records yields exactly that row with the same
field values. -/
theorem C1_append_then_read (w : World) (inp : SubmitInput)
    (hsheet : get_sheet_client w = Except.ok (some ()))
    (hfetch : w.fetchRaises = false)
    (hrows : w.sheetRows = [headerRow])
    (htitle : inp.title ≠ "")
    (hfile : inp.fileChosen = false) :
    ∃ w2, submitForm w inp =
        (Except.ok w2,
         Effects.mk false false (some (rowCells inp w.now (Cell.str "")))) ∧
      get_data w2 =
        Except.ok (DataFrame.mk fixedHeader [rowCells inp w.now (Cell.str "")]) := by
  refine ⟨{ w with sheetRows :=
    w.sheetRows ++ [rowCells inp w.now (Cell.str "")] }, ?_, ?_⟩
  · simp [submitForm, htitle, hfile, appendStep, hsheet]
  · rw [get_data, get_sheet_client_set_rows, hsheet]
    simp [hfetch, hrows, dataFrameOfValues]
    decide

/-- Witness for C1 at a concrete world and submission. -/
theorem C1_append_then_read_witness :
    ∃ w2, submitForm wBase inpX =
        (Except.ok w2,
         Effects.mk false false (some (rowCells inpX wBase.now (Cell.str "")))) ∧
      get_data w2 =
        Except.ok (DataFrame.mk fixedHeader [rowCells inpX wBase.now (Cell.str "")]) :=
  C1_append_then_read wBase inpX rfl rfl rfl (by decide) rfl

/-- Claim C2: a submission with an empty title is rejected with a warning,
before any remote call: no upload is attempted, nothing is appended, and the
world (in particular the remote table) is unchanged. -/
theorem C2_empty_title_rejected (w : World) (inp : SubmitInput)
    (h : inp.title = "") :
    submitForm w inp = (Except.ok w, Effects.mk true false none) := by
  simp [submitForm, h]

/-- Witness for C2 at a concrete world and submission. -/
theorem C2_empty_title_rejected_witness :
    submitForm wBase { inpX with title := "" } =
      (Except.ok wBase, Effects.mk true false none) :=
  C2_empty_title_rejected wBase { inpX with title := "" } rfl

/-- Claim C3: the full overwrite replaces the remote table with the header
row followed by all rows of the input frame, and overwriting with a frame of
zero rows leaves only the header, so a subsequent read returns an empty
record set. -/
theorem C3_overwrite_then_read (w : World) (df : DataFrame)
    (hsheet : get_sheet_client w = Except.ok (some ()))
    (hfetch : w.fetchRaises = false) :
    ∃ w2, update_entire_sheet w df = Except.ok w2 ∧
      w2.sheetRows = df.cols.map Cell.str :: df.rows ∧
      (df.rows = [] → get_data w2 = Except.ok (DataFrame.mk [] [])) := by
  refine ⟨{ w with sheetRows := df.cols.map Cell.str :: df.rows }, ?_, rfl, ?_⟩
  · simp [update_entire_sheet, hsheet]
  · intro hnil
    rw [get_data, get_sheet_client_set_rows, hsheet]
    simp [hfetch, hnil, dataFrameOfValues]

/-- A frame with the fixed header and zero rows. -/
def dfEmpty : DataFrame := DataFrame.mk fixedHeader []

/-- Witness for C3 at a concrete world and the zero-row frame. -/
theorem C3_overwrite_then_read_witness :
    ∃ w2, update_entire_sheet wBase dfEmpty = Except.ok w2 ∧
      w2.sheetRows = dfEmpty.cols.map Cell.str :: dfEmpty.rows ∧
      (dfEmpty.rows = [] → get_data w2 = Except.ok (DataFrame.mk [] [])) :=
  C3_overwrite_then_read wBase dfEmpty rfl rfl

/-- A record containing the term a.c nowhere as a literal substring, but
whose review cell abc matches it as a regular expression. -/
def rowRe : List Cell :=
  [Cell.str "A", Cell.str "AV", Cell.str "alpha", Cell.num 7,
   Cell.str "abc", Cell.str "2024-04-30 10:00:00", Cell.str ""]

/-- A record carrying the term a.c as a literal substring, only in its
tags cell. -/
def rowLit : List Cell :=
  [Cell.str "B", Cell.str "ASMR", Cell.str "a.c misc", Cell.num 9,
   Cell.str "good", Cell.str "2024-04-30 11:00:00", Cell.str ""]

/-- A world whose sheet holds the header, rowRe, then rowLit. -/
def wRegex : World := { wBase with sheetRows := [headerRow, rowRe, rowLit] }

/-- Counterexample for C4: the term a.c occurs as a literal substring only
in the tags cell of rowLit and in no stringified cell of rowRe, yet the
filter shows both records, because the code hands the term to pandas
str.contains whose default regex=True makes the dot match the b of abc; so
the filter is not a case-insensitive substring match for every term, and
the unique-tags search does not return exactly the one record. -/
theorem C4_counterexample :
    (("a.c" : String) ≠ "" ∧
     containsCI (cellStr (rowLit.getD 2 (Cell.str ""))) "a.c" = true ∧
     (∀ i, i < 7 → i ≠ 2 →
       containsCI (cellStr (rowLit.getD i (Cell.str ""))) "a.c" = false) ∧
     rowMatchesCI rowRe "a.c" = false) ∧
    searchView wRegex "a.c" =
      some (Except.ok (wRegex, DataFrame.mk fixedHeader [rowRe, rowLit])) ∧
    DataFrame.mk fixedHeader [rowRe, rowLit] ≠ DataFrame.mk fixedHeader [rowLit] :=
  ⟨⟨by decide, by decide, by decide, by decide⟩, rfl, by decide⟩

/-- Claim C4 (amended): the search filter interprets the term as a
case-insensitive regular expression over the stringified form of every
column, not as a literal substring; for terms free of regex metacharacters
the two readings coincide, and such a term occurring only in the tags cell
of exactly one record returns exactly that record and no others, with the
world (hence the persisted table) unchanged. -/
theorem C4_search_regex_literal (w : World) (term : String)
    (pre post : List (List Cell)) (r : List Cell)
    (hsheet : get_sheet_client w = Except.ok (some ()))
    (hfetch : w.fetchRaises = false)
    (hrows : w.sheetRows = headerRow :: (pre ++ r :: post))
    (hterm : term ≠ "")
    (hlit : ∀ c ∈ term.toList, c ∉ metachars)
    (hlen : r.length = 7)
    (htags : containsCI (cellStr (r.getD 2 (Cell.str ""))) term = true)
    (hothers : ∀ i, i < 7 → i ≠ 2 →
      containsCI (cellStr (r.getD i (Cell.str ""))) term = false)
    (hrest : ∀ r2 ∈ pre ++ post, rowMatchesCI r2 term = false) :
    searchView w term = some (Except.ok (w, DataFrame.mk fixedHeader [r])) := by
  have h2 : 2 < r.length := by omega
  have hmatch : rowMatchesCI r term = true := by
    refine List.any_eq_true.mpr ⟨r.getD 2 (Cell.str ""), ?_, htags⟩
    rw [List.getD_eq_getElem r _ h2]
    exact List.getElem_mem h2
  have hfun : (fun x => rowMatchesRe x (term.toList.map RTok.lit)) =
      (fun x => rowMatchesCI x term) :=
    funext fun x => rowMatchesRe_lit x term
  have hpre : pre.filter (fun x => rowMatchesCI x term) = [] :=
    List.filter_eq_nil_iff.mpr fun a ha => by
      simp [hrest a (List.mem_append_left _ ha)]
  have hpost : post.filter (fun x => rowMatchesCI x term) = [] :=
    List.filter_eq_nil_iff.mpr fun a ha => by
      simp [hrest a (List.mem_append_right _ ha)]
  have hfl2 : (r :: post).filter (fun x => rowMatchesCI x term) = [r] := by
    simp [List.filter_cons, hmatch, hpost]
  have hts2 : parseTerm term.data = some (List.map RTok.lit term.data) :=
    parseTerm_lit _ hlit
  have hfun2 : (fun x => rowMatchesRe x (List.map RTok.lit term.data)) =
      (fun x => rowMatchesCI x term) := hfun
  have hdata : get_data w =
      Except.ok (DataFrame.mk fixedHeader (pre ++ r :: post)) := by
    rw [get_data, hsheet]
    simp [hfetch, hrows, dataFrameOfValues]
    decide
  have hmem : "file_link" ∈ fixedHeader := by decide
  rw [searchView, hdata]
  simp [filterDf, hterm, hts2, hfun2, hpre, hfl2, ensureFileLink, hmem]

/-- A stored record whose fields do not contain the search term. -/
def rowNoMatch : List Cell :=
  [Cell.str "A", Cell.str "AV", Cell.str "alpha beta", Cell.num 7,
   Cell.str "meh", Cell.str "2024-04-30 10:00:00", Cell.str ""]

/-- A stored record carrying the search term only in its tags column. -/
def rowTagMatch : List Cell :=
  [Cell.str "B", Cell.str "ASMR", Cell.str "zzz misc", Cell.num 9,
   Cell.str "good", Cell.str "2024-04-30 11:00:00", Cell.str ""]

/-- A world whose sheet holds the header and the two records above. -/
def wSearch : World :=
  { wBase with sheetRows := [headerRow, rowNoMatch, rowTagMatch] }

/-- Witness for the amended C4 at a concrete world and the
metacharacter-free term zzz. -/
theorem C4_search_regex_literal_witness :
    searchView wSearch "zzz" =
      some (Except.ok (wSearch, DataFrame.mk fixedHeader [rowTagMatch])) :=
  C4_search_regex_literal wSearch "zzz" [rowNoMatch] [] rowTagMatch
    rfl rfl rfl (by decide) (by decide) (by decide) (by decide) (by decide)
    (by decide)

/-- Claim C5: a submission with rating below 8.0 never attempts a file
upload; and when the upload of a chosen file succeeds for a submission with
rating at least 8.0 and a well-formed link comes back, the appended row
carries that link, which is non-empty and well-formed, in its file_link
column. -/
theorem C5_upload_gating (w : World) (inp : SubmitInput) :
    (inp.rating < 8 → (submitForm w inp).2.uploadAttempted = false) ∧
    (∀ l, 8 ≤ inp.rating → inp.fileChosen = true → inp.title ≠ "" →
      upload_file_to_drive w = Except.ok (some l) → wellFormedLink l = true →
      get_sheet_client w = Except.ok (some ()) →
      ∃ w2, submitForm w inp =
          (Except.ok w2,
           Effects.mk false true (some (rowCells inp w.now (Cell.str l)))) ∧
        l ≠ "" ∧ wellFormedLink l = true) := by
  constructor
  · intro hlt
    by_cases ht : inp.title = ""
    · simp [submitForm, ht]
    · have hd : decide (8 ≤ inp.rating) = false := decide_eq_false (not_le.mpr hlt)
      simp [submitForm, ht, hd, appendStep_uploadAttempted]
  · intro l hr hf ht hup hwf hsheet
    refine ⟨{ w with sheetRows :=
      w.sheetRows ++ [rowCells inp w.now (Cell.str l)] }, ?_, ?_, hwf⟩
    · have hd : decide (8 ≤ inp.rating) = true := decide_eq_true hr
      simp [submitForm, ht, hd, hf, hup, appendStep, hsheet]
    · intro hl
      rw [hl] at hwf
      exact absurd hwf (by decide)

/-- A submission with rating 7.0 and a file picked in a previous render. -/
def inpLow : SubmitInput := { inpX with rating := 7, fileChosen := true }

/-- A world with a configured drive folder and a succeeding upload. -/
def wDrive : World := { wBase with
  driveFolderId := some "folder"
  driveUploadResult := some "https://drive.google.com/file/d/abc/view" }

/-- A submission with rating 9.0 and a file picked. -/
def inpUp : SubmitInput := { inpX with fileChosen := true }

/-- The link the drive returns in the witness world. -/
def theLink : String := "https://drive.google.com/file/d/abc/view"

/-- Witness for C5: no attempt at rating 7.0, and a successful upload at
rating 9.0 lands the link in the appended row. -/
theorem C5_upload_gating_witness :
    (submitForm wBase inpLow).2.uploadAttempted = false ∧
    (∃ w2, submitForm wDrive inpUp =
        (Except.ok w2,
         Effects.mk false true (some (rowCells inpUp wDrive.now (Cell.str theLink)))) ∧
      theLink ≠ "" ∧ wellFormedLink theLink = true) :=
  ⟨(C5_upload_gating wBase inpLow).1 (by decide),
   (C5_upload_gating wDrive inpUp).2 theLink (by decide) rfl (by decide)
     rfl (by decide) rfl⟩

/-- A world whose google_key secret is a structured object that the
credential constructor rejects as malformed. -/
def wBadDict : World where
  googleKey := some (SecretVal.dict "bad")
  driveFolderId := none
  parseJson := fun _ => none
  fromInfo := fun _ => none
  fromFile := none
  openRaises := false
  fetchRaises := false
  driveUploadResult := none
  sheetRows := []
  now := ""

/-- Counterexample for C6: with a malformed structured service-account
secret, credential resolution raises instead of returning a handle or
none, because the dict branch calls the credential constructor outside any
try/except. -/
theorem C6_counterexample :
    get_creds wBadDict = Except.error PyExc.valueError := rfl

/-- Claim C6 (amended): credential resolution swallows failures of the
JSON-string secret and of the local key file, returning a handle or none;
only a structured (dict) secret rejected by the credential constructor
makes it propagate an exception. -/
theorem C6_creds_no_raise_unless_bad_dict (w : World)
    (h : ∀ k, w.googleKey = some (SecretVal.dict k) →
      (w.fromInfo k).isSome = true) :
    ∃ r, get_creds w = Except.ok r :=
  get_creds_ok_of_no_bad_dict w h

/-- Witness for the amended C6 at a concrete world. -/
theorem C6_creds_no_raise_unless_bad_dict_witness :
    ∃ r, get_creds wBase = Except.ok r :=
  C6_creds_no_raise_unless_bad_dict wBase (fun _ _ => rfl)

/-- A world with valid credentials where opening the spreadsheet raises. -/
def wOpenFail : World := { wBase with openRaises := true }

/-- Counterexample for C7: a connection/auth/open failure while building
the sheet client propagates out of get_data instead of being absorbed,
because the client construction sits outside the try/except. -/
theorem C7_counterexample :
    get_data wOpenFail = Except.error PyExc.apiError := rfl

/-- Claim C7 (amended): get_data absorbs fetch failures and missing
credentials, returning an empty record set, provided the client
construction itself does not raise; a failure while authorizing or opening
the spreadsheet is outside the try/except and propagates. -/
theorem C7_read_failure_handling (w : World)
    (hdict : ∀ k, w.googleKey = some (SecretVal.dict k) →
      (w.fromInfo k).isSome = true)
    (hopen : w.openRaises = false) :
    (∃ df, get_data w = Except.ok df) ∧
    (w.fetchRaises = true → get_sheet_client w = Except.ok (some ()) →
      get_data w = Except.ok (DataFrame.mk [] [])) := by
  obtain ⟨r, hr⟩ := get_creds_ok_of_no_bad_dict w hdict
  constructor
  · cases r with
    | none =>
      have hcl : get_sheet_client w = Except.ok none := by
        unfold get_sheet_client
        rw [hr]
      exact ⟨DataFrame.mk [] [], by unfold get_data; rw [hcl]⟩
    | some c =>
      have hcl : get_sheet_client w = Except.ok (some ()) := by
        unfold get_sheet_client
        rw [hr]
        simp [hopen]
      cases hft : w.fetchRaises with
      | true =>
        exact ⟨DataFrame.mk [] [], by unfold get_data; rw [hcl]; simp [hft]⟩
      | false =>
        exact ⟨dataFrameOfValues w.sheetRows, by
          unfold get_data; rw [hcl]; simp [hft]⟩
  · intro hft hcl
    unfold get_data
    rw [hcl]
    simp [hft]

/-- A world with valid credentials where the record fetch raises. -/
def wFetchFail : World := { wBase with fetchRaises := true }

/-- Witness for the amended C7 at a concrete world. -/
theorem C7_read_failure_handling_witness :
    (∃ df, get_data wFetchFail = Except.ok df) ∧
    (wFetchFail.fetchRaises = true →
      get_sheet_client wFetchFail = Except.ok (some ()) →
      get_data wFetchFail = Except.ok (DataFrame.mk [] [])) :=
  C7_read_failure_handling wFetchFail (fun _ _ => rfl) rfl

/-- Claim C8: after overwriting the table with a frame that lacks the
file_link column, reading it back and preparing it for display does not
raise; the guard at the call site supplies a file_link column whose cells
are all the empty string. -/
theorem C8_missing_file_link_tolerated (w : World) (df : DataFrame)
    (hsheet : get_sheet_client w = Except.ok (some ()))
    (hfetch : w.fetchRaises = false)
    (hcol : "file_link" ∉ df.cols) :
    ∃ w2 df2, update_entire_sheet w df = Except.ok w2 ∧
      get_data w2 = Except.ok df2 ∧
      "file_link" ∈ (ensureFileLink df2).cols ∧
      ensureFileLink df2 = DataFrame.mk (df2.cols ++ ["file_link"])
        (df2.rows.map (fun r => r ++ [Cell.str ""])) := by
  have hc2 : "file_link" ∉
      (dataFrameOfValues (df.cols.map Cell.str :: df.rows)).cols := by
    cases df.rows with
    | nil => simp [dataFrameOfValues]
    | cons a t =>
      simp [dataFrameOfValues, List.map_map, cellStr_comp_str]
      exact hcol
  refine ⟨{ w with sheetRows := df.cols.map Cell.str :: df.rows },
    dataFrameOfValues (df.cols.map Cell.str :: df.rows), ?_, ?_, ?_, ?_⟩
  · simp [update_entire_sheet, hsheet]
  · rw [get_data, get_sheet_client_set_rows, hsheet]
    simp [hfetch]
  · simp [ensureFileLink, hc2]
  · simp [ensureFileLink, hc2]

/-- A frame with the six columns before file_link existed and one row. -/
def dfNoLink : DataFrame :=
  DataFrame.mk ["title", "category", "tags", "rating", "review", "created_at"]
    [[Cell.str "A", Cell.str "AV", Cell.str "alpha", Cell.num 7,
      Cell.str "meh", Cell.str "2024-04-30 10:00:00"]]

/-- Witness for C8 at a concrete world and frame. -/
theorem C8_missing_file_link_tolerated_witness :
    ∃ w2 df2, update_entire_sheet wBase dfNoLink = Except.ok w2 ∧
      get_data w2 = Except.ok df2 ∧
      "file_link" ∈ (ensureFileLink df2).cols ∧
      ensureFileLink df2 = DataFrame.mk (df2.cols ++ ["file_link"])
        (df2.rows.map (fun r => r ++ [Cell.str ""])) :=
  C8_missing_file_link_tolerated wBase dfNoLink rfl rfl (by decide)

/-- Claim C9: when the upload returns None (in particular when the
drive_folder_id secret is missing) but the sheet is reachable, the
submission still appends the row, whose textual fields are as entered and
whose file_link cell holds the Python value None rather than the
empty-string placeholder. -/
theorem C9_failed_upload_appends (w : World) (inp : SubmitInput)
    (htitle : inp.title ≠ "") (hrating : 8 ≤ inp.rating)
    (hfile : inp.fileChosen = true)
    (hupload : w.driveFolderId = none ∨
      upload_file_to_drive w = Except.ok none)
    (hsheet : get_sheet_client w = Except.ok (some ())) :
    ∃ w2, submitForm w inp =
        (Except.ok w2,
         Effects.mk false true (some (rowCells inp w.now Cell.pynone))) ∧
      w2.sheetRows = w.sheetRows ++ [rowCells inp w.now Cell.pynone] := by
  have hup : upload_file_to_drive w = Except.ok none := by
    rcases hupload with hfid | hok
    · obtain ⟨c, hc⟩ := creds_of_sheet_client w hsheet
      unfold upload_file_to_drive
      rw [hc, hfid]
    · exact hok
  have hd : decide (8 ≤ inp.rating) = true := decide_eq_true hrating
  refine ⟨{ w with sheetRows :=
    w.sheetRows ++ [rowCells inp w.now Cell.pynone] }, ?_, rfl⟩
  simp [submitForm, htitle, hd, hfile, hup, appendStep, hsheet]

/-- Witness for C9: in the base world no drive folder is configured, yet
the row is appended with None in the file_link cell. -/
theorem C9_failed_upload_appends_witness :
    ∃ w2, submitForm wBase inpUp =
        (Except.ok w2,
         Effects.mk false true (some (rowCells inpUp wBase.now Cell.pynone))) ∧
      w2.sheetRows = wBase.sheetRows ++ [rowCells inpUp wBase.now Cell.pynone] :=
  C9_failed_upload_appends wBase inpUp (by decide) (by decide) rfl
    (Or.inl rfl) rfl

/-- Claim C10: pressing save with an active search term only warns and
leaves the remote table unchanged, so a filtered view is never persisted;
with an empty search box the save performs the full overwrite. -/
theorem C10_save_guard (w : World) (term : String) (edited : DataFrame) :
    (term ≠ "" → clickSave w term edited = (Except.ok w, true)) ∧
    (term = "" → get_sheet_client w = Except.ok (some ()) →
      ∃ w2, clickSave w term edited = (Except.ok w2, false) ∧
        w2.sheetRows = edited.cols.map Cell.str :: edited.rows) := by
  constructor
  · intro h
    simp [clickSave, h]
  · intro h hsheet
    refine ⟨{ w with sheetRows := edited.cols.map Cell.str :: edited.rows },
      ?_, rfl⟩
    simp [clickSave, h, update_entire_sheet, hsheet]

/-- Witness for C10: a save with term zzz only warns, a save with the
empty term overwrites. -/
theorem C10_save_guard_witness :
    clickSave wBase "zzz" dfEmpty = (Except.ok wBase, true) ∧
    (∃ w2, clickSave wBase "" dfEmpty = (Except.ok w2, false) ∧
      w2.sheetRows = dfEmpty.cols.map Cell.str :: dfEmpty.rows) :=
  ⟨(C10_save_guard wBase "zzz" dfEmpty).1 (by decide),
   (C10_save_guard wBase "" dfEmpty).2 rfl rfl⟩

end MediaApp
